import Mathlib

/-!
Verification of the axai-pg data layer: a shallow embedding of the schema
defaults, model methods, repository dispatch logic and table constraints
from `src/axai_pg/data/models/*.py` and
`src/axai_pg/data/repositories/base_repository.py`, together with proofs
of the specified invariants. Components specified in the design document
but absent from the source tree (the Collection Merge Engine and the
Collection Graph State Machine) are modelled from the specification text
and marked as such.
-/

namespace AxaiPg

/- ## JSON values (the JSON / JSONB columns) -/

/-- A JSON value, as stored in the `JSON`/`JSONB` columns. -/
inductive Json where
  | null
  | bool (b : Bool)
  | num (n : Int)
  | str (s : String)
  | arr (elems : List Json)
  | obj (fields : List (String × Json))

/-- Lookup of a key in a JSON object's field list (Python `d[k]` read). -/
def getKey : List (String × Json) → String → Option Json
  | [], _ => none
  | (k', v) :: rest, k => if k' == k then some v else getKey rest k

/-- Assignment of a key in a JSON object's field list (Python `d[k] = v`):
replaces the value of an existing key in place, otherwise appends the key. -/
def setKey : List (String × Json) → String → Json → List (String × Json)
  | [], k, v => [(k, v)]
  | (k', v') :: rest, k, v =>
    if k' == k then (k, v) :: rest else (k', v') :: setKey rest k v

/- ## Dual-identifier mixin (models/base.py, DualIdMixin)

Python: `kwargs['id'] = str(uuid_val).replace('-', '')[-8:]`.
`stripHyphens` models `str.replace('-', '')`; `takeLast 8` models `[-8:]`. -/

def stripHyphens (s : String) : String :=
  String.mk (s.toList.filter (fun c => c ≠ '-'))

def takeLast (n : Nat) (s : String) : String :=
  String.mk (s.toList.drop (s.toList.length - n))

def deriveShortId (uuidStr : String) : String :=
  takeLast 8 (stripHyphens uuidStr)

/-- A canonical textual UUID: what Python `str(uuid_obj)` produces —
36 characters with hyphens at positions 8, 13, 18, 23, so that removing
the hyphens leaves 32 hex digits. Only the hyphen-free length matters
for the length property. -/
def isCanonicalUuidRepr (s : String) : Prop :=
  (stripHyphens s).length = 32

instance (s : String) : Decidable (isCanonicalUuidRepr s) := by
  unfold isCanonicalUuidRepr; infer_instance

/-- The keyword arguments relevant to `DualIdMixin.__init__`. -/
structure DualIdKwargs where
  uuidArg : Option String
  idArg : Option String

/-- Model of `DualIdMixin.__init__`: given the kwargs and the fresh UUID that
`uuid_lib.uuid4()` would produce, returns the resulting `(uuid, id)` pair.
When `uuid` is supplied without `id`, `id` is derived from the supplied uuid;
when neither is supplied, a fresh uuid is drawn and `id` is derived from it;
otherwise the supplied values pass through (the uuid column default fills a
missing uuid at insert). -/
def dualIdInit (freshUuid : String) (kw : DualIdKwargs) : String × String :=
  match kw.uuidArg, kw.idArg with
  | some u, none => (u, deriveShortId u)
  | none, none => (freshUuid, deriveShortId freshUuid)
  | some u, some i => (u, i)
  | none, some i => (freshUuid, i)

/-- A stored `(uuid, id)` pair in a table using the dual-id pattern. -/
abbrev DualIdTable := List (String × String)

/-- Model of inserting a row into a table whose `id` column is declared
`unique=True` (models/base.py line 29): the write is rejected when the short
id collides with an existing row's short id. -/
def insertDualIdRow (t : DualIdTable) (row : String × String) : Option DualIdTable :=
  if t.any (fun r => r.2 == row.2) then none else some (row :: t)

/- ## Repository id dispatch (repositories/base_repository.py, find_by_id) -/

/-- The Python value passed to `find_by_id`: an instance of `uuid.UUID`,
a `str`, or anything else. -/
inductive PyId where
  | uuidVal (u : String)
  | strVal (s : String)
  | otherVal
deriving DecidableEq, Repr

/-- A stored row as seen by the repository lookups: internal uuid plus
8-character short display id. -/
structure RepoRow where
  uuid : String
  id : String
deriving DecidableEq, Repr

/-- `find_by_uuid`: `session.query(...).filter_by(uuid=uuid).first()`. -/
def find_by_uuid (t : List RepoRow) (u : String) : Option RepoRow :=
  t.find? (fun r => r.uuid == u)

/-- `find_by_short_id`: `session.query(...).filter_by(id=short_id).first()`. -/
def find_by_short_id (t : List RepoRow) (s : String) : Option RepoRow :=
  t.find? (fun r => r.id == s)

/-- Model of `BaseRepository.find_by_id`. `parseUuid` stands for the standard
library constructor `uuid.UUID(id_value)`; `none` models the `ValueError` /
`AttributeError` path. The dispatch mirrors the source: a `UUID` instance is
looked up by uuid; a string of length 8 is looked up as a short id; any other
string is parsed as a UUID and looked up by uuid, returning `none` when the
parse fails; any other value returns `none`. -/
def find_by_id (parseUuid : String → Option String) (t : List RepoRow) :
    PyId → Option RepoRow
  | PyId.uuidVal u => find_by_uuid t u
  | PyId.strVal s =>
    if s.length = 8 then find_by_short_id t s
    else
      match parseUuid s with
      | some u => find_by_uuid t u
      | none => none
  | PyId.otherVal => none

/-- A hexadecimal digit, as accepted by Python `uuid.UUID`. -/
def isHexDigitChar (c : Char) : Bool :=
  (('0' ≤ c && c ≤ '9') || ('a' ≤ c && c ≤ 'f') || ('A' ≤ c && c ≤ 'F'))

/-- A concrete instance of the UUID parser, accepting the canonical hyphenated
form: after removing hyphens there must remain exactly 32 hex digits. Used to
instantiate the abstract `parseUuid` parameter on concrete inputs. -/
def parseCanonicalUuid (s : String) : Option String :=
  let h := stripHyphens s
  if h.toList.length = 32 && h.toList.all isHexDigitChar then some h else none

/- ## EntityOperation (models/collection.py, class EntityOperation) -/

/-- `OperationType` enum (collection.py lines 348-360). -/
inductive OperationType where
  | created
  | merged
  | split
  | deleted
  | updated
  | unmerged
  | link
  | unlink
  | initialize_graph
  | sync_graph
deriving DecidableEq, Repr

/-- A row of `entity_operations` (collection.py lines 363-407). -/
structure EntityOperation where
  uuid : String
  id : String
  collection_uuid : String
  operation_type : OperationType
  entity_id : Option String
  description : Option String
  details : Option Json
  performed_by_uuid : Option String
  entity_ids : Option (List String)
  operation_data : Option (List (String × Json))
  user_uuid : Option String
  status : String
  performed_at : Nat

/-- `EntityOperation.mark_completed` (collection.py lines 409-411):
`self.status = 'completed'`. -/
def mark_completed (op : EntityOperation) : EntityOperation :=
  { op with status := "completed" }

/-- `EntityOperation.mark_failed` (collection.py lines 413-418):
`self.status = 'failed'`; `if not self.operation_data: self.operation_data = {}`
(the test is also true of an empty dict, which is falsy);
`self.operation_data['error'] = error_message`. -/
def mark_failed (op : EntityOperation) (error_message : String) : EntityOperation :=
  let base : List (String × Json) :=
    match op.operation_data with
    | none => []
    | some l => l
  { op with
    status := "failed"
    operation_data := some (setKey base "error" (Json.str error_message)) }

/-- `EntityOperation.set_rollback_data` (collection.py lines 420-424). -/
def set_rollback_data (op : EntityOperation) (data : Json) : EntityOperation :=
  let base : List (String × Json) :=
    match op.operation_data with
    | none => []
    | some l => l
  { op with operation_data := some (setKey base "rollback" data) }

/-- The status-mutating surface of the `EntityOperation` model: the only
methods the model defines that write any field. -/
inductive OpMethod where
  | markCompleted
  | markFailed (msg : String)
  | setRollbackData (data : Json)

def applyOpMethod (op : EntityOperation) : OpMethod → EntityOperation
  | OpMethod.markCompleted => mark_completed op
  | OpMethod.markFailed m => mark_failed op m
  | OpMethod.setRollbackData d => set_rollback_data op d

/-- The creation arguments of an `EntityOperation` as passed through
`BaseRepository.create` (`model_class(**entity)` followed by commit, which
applies the column defaults to unsupplied fields). -/
structure EntityOperationKwargs where
  collection_uuid : String
  operation_type : OperationType
  entity_ids : Option (List String)
  details : Option Json
  performed_by_uuid : Option String
  statusArg : Option String

/-- Model of creating an `EntityOperation` row: `DualIdMixin.__init__`
generates the uuid/short-id pair, the `status` column default `'pending'`
(collection.py line 392) applies when the caller supplies no status, and
`performed_at` takes the server default `now()`. -/
def createEntityOperation (freshUuid : String) (now : Nat)
    (kw : EntityOperationKwargs) : EntityOperation :=
  { uuid := freshUuid
    id := deriveShortId freshUuid
    collection_uuid := kw.collection_uuid
    operation_type := kw.operation_type
    entity_id := none
    description := none
    details := kw.details
    performed_by_uuid := kw.performed_by_uuid
    entity_ids := kw.entity_ids
    operation_data := none
    user_uuid := none
    status := kw.statusArg.getD "pending"
    performed_at := now }

/- ## CollectionEntity (models/collection.py, class CollectionEntity) -/

/-- A row of `collection_entities` (collection.py lines 115-164). -/
structure CollectionEntity where
  uuid : String
  id : String
  collection_uuid : String
  entity_id : String
  entity_type : String
  name : String
  description : Option String
  properties : Option Json
  source_entity_ids : Option (List String)
  display_name : Option String
  is_merged : Bool
  created_from_link_uuid : Option String
  lifecycle_state : String
  operation_lock : Option String

/-- The creation arguments of a `CollectionEntity` relevant to the lifecycle
fields; `none` means the caller did not supply the field, so the column
default applies at insert. -/
structure CollectionEntityKwargs where
  collection_uuid : String
  entity_id : String
  entity_type : String
  name : String
  is_mergedArg : Option Bool
  lifecycle_stateArg : Option String
  operation_lockArg : Option String

/-- Model of creating a `CollectionEntity` row through
`BaseRepository.create`: the column defaults `is_merged=False` (line 143),
`lifecycle_state='individual'` (line 145) apply when unsupplied, and
`operation_lock` is nullable with no default (line 146), so it stays unset. -/
def createCollectionEntity (freshUuid : String) (kw : CollectionEntityKwargs) :
    CollectionEntity :=
  { uuid := freshUuid
    id := deriveShortId freshUuid
    collection_uuid := kw.collection_uuid
    entity_id := kw.entity_id
    entity_type := kw.entity_type
    name := kw.name
    description := none
    properties := none
    source_entity_ids := none
    display_name := none
    is_merged := kw.is_mergedArg.getD false
    created_from_link_uuid := none
    lifecycle_state := kw.lifecycle_stateArg.getD "individual"
    operation_lock := kw.operation_lockArg }

/- ## Collection (models/collection.py, class Collection) -/

/-- A row of `collections` (collection.py lines 19-97). -/
structure Collection where
  uuid : String
  id : String
  name : String
  description : Option String
  owner_uuid : String
  org_uuid : Option String
  parent_uuid : Option String
  is_deleted : Bool
  is_graph_generated : Bool
  entity_count : Int
  relationship_count : Int
  document_count : Int
  graph_state : String
  entities_hash : Option String
deriving DecidableEq, Repr

/-- Model of creating a `Collection` row through `BaseRepository.create` with
only the required fields supplied: the column defaults apply —
`entity_count=0`, `relationship_count=0`, `document_count=0` (lines 59-61),
`graph_state='uninitialized'` (line 68), `is_deleted=False`,
`is_graph_generated=False`. -/
def createCollection (freshUuid : String) (name : String) (owner_uuid : String)
    (org_uuid : Option String) : Collection :=
  { uuid := freshUuid
    id := deriveShortId freshUuid
    name := name
    description := none
    owner_uuid := owner_uuid
    org_uuid := org_uuid
    parent_uuid := none
    is_deleted := false
    is_graph_generated := false
    entity_count := 0
    relationship_count := 0
    document_count := 0
    graph_state := "uninitialized"
    entities_hash := none }

/-- The documented domain of `Collection.graph_state` (collection.py line 68
comment; spec §3). -/
def graphStates : List String :=
  ["uninitialized", "initializing", "synchronized", "out_of_sync", "updating", "error"]

/-- The events of the Collection Graph State Machine of spec §4.4:
begin initialization, ingest complete, drift detected, sync begun,
sync succeeded, sync failed, and an error fault from an active state. -/
inductive GraphEvent where
  | beginInit
  | ingestDone
  | driftFound
  | syncBegin
  | syncOk
  | syncErr
  | fault
deriving DecidableEq, Repr

/-- Modelled from the spec: the Collection Graph State Machine (§4.4,
`initialize` / `detect_drift` / `sync`) is specified but not present under
src/ — only the `graph_state` column and its comment are. Transitions:
uninitialized → initializing (initialize), initializing → synchronized
(ingestion complete), synchronized → out_of_sync (detect_drift),
out_of_sync/error → updating (sync), updating → synchronized (success)
or error (failure), and error reachable from any active state. An event
not enabled in the current state is rejected (`none`). -/
def graphStateStep (s : String) : GraphEvent → Option String
  | GraphEvent.beginInit => if s == "uninitialized" then some "initializing" else none
  | GraphEvent.ingestDone => if s == "initializing" then some "synchronized" else none
  | GraphEvent.driftFound => if s == "synchronized" then some "out_of_sync" else none
  | GraphEvent.syncBegin =>
      if s == "out_of_sync" || s == "error" then some "updating" else none
  | GraphEvent.syncOk => if s == "updating" then some "synchronized" else none
  | GraphEvent.syncErr => if s == "updating" then some "error" else none
  | GraphEvent.fault =>
      if s == "initializing" || s == "synchronized" || s == "out_of_sync"
          || s == "updating" then some "error" else none

/- ## EntityLink (models/collection.py, class EntityLink) -/

/-- A row of `entity_links` (collection.py lines 287-336). -/
structure EntityLink where
  uuid : String
  id : String
  graph_entity_uuid : Option String
  collection_entity_uuid : Option String
  collection_uuid : String
  entity_type : Option String
  confidence_score : Option Int
  link_type : Option String
  linked_entities : Option Json
  is_active : Bool
  merged_entity_uuid : Option String
  common_name : Option String
  description : Option String
  created_by_tool : Option String

/-- The row-level check constraints declared in `EntityLink.__table_args__`
(collection.py lines 330-336): the tuple contains four `Index` entries and
no `CheckConstraint` — in particular nothing constrains `confidence_score`,
which carries only the comment `# 0-100 confidence in the link`. -/
def entityLinkChecksOk (_r : EntityLink) : Bool := true

/-- Model of persisting an `EntityLink` row: the unique short-id column and
the table's declared check constraints are the only write-time validations. -/
def insertEntityLink (t : List EntityLink) (r : EntityLink) :
    Option (List EntityLink) :=
  if t.any (fun e => e.id == r.id) then none
  else if entityLinkChecksOk r then some (r :: t) else none

/- ## GraphRelationship (models/graph.py, class GraphRelationship) -/

/-- A row of `graph_relationships` (graph.py lines 79-140). `Numeric`
columns are modelled as rationals. -/
structure GraphRelationship where
  uuid : String
  id : String
  source_entity_uuid : String
  target_entity_uuid : String
  relationship_id : Option String
  relationship_type : String
  is_directed : Bool
  weight : Option ℚ
  confidence_score : Option ℚ
  created_by_tool : String
  is_active : Bool
deriving DecidableEq, Repr

/-- The row-level check constraints declared in
`GraphRelationship.__table_args__` (graph.py lines 129-133):
`confidence_score IS NULL OR (confidence_score >= 0 AND confidence_score <= 1)`
and `weight IS NULL OR weight > 0`. -/
def graphRelationshipChecksOk (r : GraphRelationship) : Bool :=
  (match r.confidence_score with
   | none => true
   | some c => decide (0 ≤ c) && decide (c ≤ 1)) &&
  (match r.weight with
   | none => true
   | some w => decide (0 < w))

/-- Model of persisting a `GraphRelationship` row: the write succeeds only
when the unique short-id column and the declared check constraints pass. -/
def insertGraphRelationship (t : List GraphRelationship) (r : GraphRelationship) :
    Option (List GraphRelationship) :=
  if t.any (fun e => e.id == r.id) then none
  else if graphRelationshipChecksOk r then some (r :: t) else none

/- ## Database state and cascade delete (BaseRepository.delete) -/

/-- The slice of database state relevant to the operation ledger: the
`collections` table and the `entity_operations` table. -/
structure DbState where
  collections : List Collection
  entity_operations : List EntityOperation

/-- Model of `BaseRepository.delete` applied to a `Collection`
(base_repository.py lines 134-147): `session.delete(entity)` followed by
commit. Per `Collection.entity_operations = relationship(...,
cascade="all, delete-orphan")` (collection.py line 78) and the
`ondelete='CASCADE'` foreign key on `EntityOperation.collection_uuid`
(collection.py line 377), deleting a collection also deletes every
`EntityOperation` row owned by it. Returns the new state and the boolean
result of `delete`. -/
def deleteCollection (st : DbState) (u : String) : DbState × Bool :=
  match st.collections.find? (fun c => c.uuid == u) with
  | none => (st, false)
  | some _ =>
    ({ collections := st.collections.filter (fun c => c.uuid != u)
       entity_operations :=
         st.entity_operations.filter (fun op => op.collection_uuid != u) },
     true)

/-- Model of `BaseRepository.create` applied to an `EntityOperation`:
appends the row; no existing row is touched. -/
def recordOperation (st : DbState) (op : EntityOperation) : DbState :=
  { st with entity_operations := op :: st.entity_operations }

/- ## Collection Merge Engine (modelled from the spec, §4.1)

Modelled from the spec: the Collection Merge Engine (`merge`, `unmerge`,
and the ingestion of individual entities) is specified in §4.1 but not
present under src/ — only the schema rows (`CollectionEntity`,
`CollectionEntitySource`) and generic CRUD are. The row shapes below are
taken from the source schema; the operations follow the spec's words. -/

/-- A row of the `collection_entity_sources` junction table
(collection.py lines 250-265). -/
structure CollectionEntitySource where
  collection_entity_uuid : String
  source_graph_entity_uuid : String
deriving DecidableEq, Repr

/-- The merge-engine state: the `collection_entities` table and its
junction table. -/
structure MergeState where
  entities : List CollectionEntity
  sources : List CollectionEntitySource

/-- Whether a candidate `CollectionEntity` uuid is already used by an entity
row or referenced by a junction row. -/
def usedCeUuid (st : MergeState) (u : String) : Bool :=
  st.entities.any (fun e => e.uuid == u) ||
    st.sources.any (fun r => r.collection_entity_uuid == u)

/-- The junction rows of a list that belong to a given `CollectionEntity`. -/
def keyLen (l : List CollectionEntitySource) (u : String) : Nat :=
  (l.filter (fun r => r.collection_entity_uuid == u)).length

/-- The number of occurrences of a string in a list. -/
def strCount (l : List String) (u : String) : Nat :=
  (l.filter (fun s => s == u)).length

/-- The number of junction rows of a given `CollectionEntity`. -/
def sourceRowCount (st : MergeState) (ceUuid : String) : Nat :=
  keyLen st.sources ceUuid

/-- The claimed invariant (spec §3): a merged entity has at least two
junction rows; an individual entity has exactly one. -/
def ceInvariant (st : MergeState) : Prop :=
  ∀ ce ∈ st.entities,
    (ce.is_merged = true → 2 ≤ sourceRowCount st ce.uuid) ∧
    (ce.lifecycle_state = "individual" → sourceRowCount st ce.uuid = 1)

instance (st : MergeState) : Decidable (ceInvariant st) := by
  unfold ceInvariant; infer_instance

/-- Modelled from the spec: ingestion of one source `GraphEntity` as an
individual `CollectionEntity` (lifecycle defaults from the schema, one
junction row for its own source). Rejected when the fresh uuid is in use. -/
def ingestIndividual (st : MergeState) (freshUuid : String)
    (kw : CollectionEntityKwargs) (srcUuid : String) : Option MergeState :=
  if usedCeUuid st freshUuid then none
  else
    some
      { entities :=
          createCollectionEntity freshUuid
            { kw with is_mergedArg := none, lifecycle_stateArg := none,
                      operation_lockArg := none } :: st.entities
        sources := { collection_entity_uuid := freshUuid,
                     source_graph_entity_uuid := srcUuid } :: st.sources }

/-- Modelled from the spec (§4.1 `merge`, create path): a merge of at least
two distinct source entities creates a `CollectionEntity` with
`is_merged=true` and `lifecycle_state='merged'` and writes one
`CollectionEntitySource` row per source. A request with fewer than two
sources, duplicate sources, or a uuid clash is rejected before any row is
written (ValidationFailure, all-or-nothing). The "or updates" branch of
§4.1 `merge` is `mergeIntoExisting` below. -/
def mergeEntities (st : MergeState) (freshUuid : String)
    (kw : CollectionEntityKwargs) (srcUuids : List String) : Option MergeState :=
  if usedCeUuid st freshUuid then none
  else if srcUuids.length < 2 then none
  else if ¬ srcUuids.Nodup then none
  else
    some
      { entities :=
          { createCollectionEntity freshUuid
              { kw with is_mergedArg := none, lifecycle_stateArg := none,
                        operation_lockArg := none } with
            is_merged := true
            lifecycle_state := "merged" } :: st.entities
        sources :=
          srcUuids.map
            (fun s => { collection_entity_uuid := freshUuid,
                        source_graph_entity_uuid := s }) ++ st.sources }

/-- Modelled from the spec (§4.1 `unmerge`): reverses a merge, splitting the
sources of a merged entity back into individual `CollectionEntity` rows
(`lifecycle_state='individual'`), one per source, each linked to exactly its
own source. A fresh uuid is supplied per new row; the request is rejected
when the target is not merged or the fresh uuids are unusable. -/
def unmergeSrcs (st : MergeState) (ceUuid : String) : List String :=
  (st.sources.filter (fun r => r.collection_entity_uuid == ceUuid)).map
    (fun r => r.source_graph_entity_uuid)

def unmergeEntity (st : MergeState) (ceUuid : String) (freshUuids : List String) :
    Option MergeState :=
  match st.entities.find? (fun e => e.uuid == ceUuid) with
  | none => none
  | some ce =>
    if ce.is_merged = false then none
    else if _h : freshUuids.length = (unmergeSrcs st ceUuid).length ∧
        freshUuids.Nodup ∧ (∀ u ∈ freshUuids, usedCeUuid st u = false) then
      some
        { entities :=
            (freshUuids.zip (unmergeSrcs st ceUuid)).map
              (fun p =>
                { ce with
                  uuid := p.1
                  id := deriveShortId p.1
                  is_merged := false
                  lifecycle_state := "individual" }) ++
              st.entities.filter (fun e => e.uuid != ceUuid)
          sources :=
            (freshUuids.zip (unmergeSrcs st ceUuid)).map
              (fun p => { collection_entity_uuid := p.1,
                          source_graph_entity_uuid := p.2 }) ++
              st.sources.filter (fun r => r.collection_entity_uuid != ceUuid) }
    else none

/-- Modelled from the spec (§4.1 `merge`, update path: "creates (or
updates) a `CollectionEntity` with `is_merged=true`, writes one
`CollectionEntitySource` row per source, sets `lifecycle_state=merged`"):
merging at least two distinct sources into an existing `CollectionEntity`
sets `is_merged=true` and `lifecycle_state='merged'` on it and replaces its
junction rows with one per requested source. Rejected when the target does
not exist or the request is malformed (ValidationFailure). -/
def mergeIntoExisting (st : MergeState) (ceUuid : String)
    (srcUuids : List String) : Option MergeState :=
  match st.entities.find? (fun e => e.uuid == ceUuid) with
  | none => none
  | some _ =>
    if srcUuids.length < 2 then none
    else if ¬ srcUuids.Nodup then none
    else
      some
        { entities :=
            st.entities.map (fun e =>
              if e.uuid == ceUuid then
                { e with is_merged := true, lifecycle_state := "merged" }
              else e)
          sources :=
            srcUuids.map
              (fun s => { collection_entity_uuid := ceUuid,
                          source_graph_entity_uuid := s }) ++
              st.sources.filter (fun r => r.collection_entity_uuid != ceUuid) }

/-- Modelled from the spec (§4.1 `split`): generalizes unmerge to an
arbitrary partition of a merged entity's sources. Each part becomes a
`CollectionEntity` with one junction row per source in the part: a
singleton part becomes an individual entity (`is_merged=false`,
`lifecycle_state='individual'`), a part of two or more sources a merged one
(`is_merged=true`, `lifecycle_state='merged'`). An empty partition, an
empty part, a partition that is not a rearrangement of the entity's
sources, or unusable fresh uuids are rejected (ValidationFailure). -/
def splitEntity (st : MergeState) (ceUuid : String)
    (partition : List (List String)) (freshUuids : List String) :
    Option MergeState :=
  match st.entities.find? (fun e => e.uuid == ceUuid) with
  | none => none
  | some ce =>
    if ce.is_merged = false then none
    else if _h : partition ≠ [] ∧ (∀ part ∈ partition, part ≠ []) ∧
        List.Perm partition.flatten (unmergeSrcs st ceUuid) ∧
        freshUuids.length = partition.length ∧ freshUuids.Nodup ∧
        (∀ u ∈ freshUuids, usedCeUuid st u = false) then
      some
        { entities :=
            (freshUuids.zip partition).map
              (fun q =>
                { ce with
                  uuid := q.1
                  id := deriveShortId q.1
                  is_merged := decide (2 ≤ q.2.length)
                  lifecycle_state :=
                    if 2 ≤ q.2.length then "merged" else "individual" }) ++
              st.entities.filter (fun e => e.uuid != ceUuid)
          sources :=
            ((freshUuids.zip partition).map
              (fun q => q.2.map (fun s =>
                { collection_entity_uuid := q.1,
                  source_graph_entity_uuid := s }))).flatten ++
              st.sources.filter (fun r => r.collection_entity_uuid != ceUuid) }
    else none

/-- An operation of the merge engine that creates or mutates
`CollectionEntity` rows: ingestion of an individual entity, merge into a
fresh entity, merge into an existing entity, unmerge, and split. -/
inductive MergeOp where
  | ingest (freshUuid : String) (kw : CollectionEntityKwargs) (srcUuid : String)
  | merge (freshUuid : String) (kw : CollectionEntityKwargs) (srcUuids : List String)
  | mergeInto (ceUuid : String) (srcUuids : List String)
  | unmerge (ceUuid : String) (freshUuids : List String)
  | split (ceUuid : String) (partition : List (List String)) (freshUuids : List String)

def applyMergeOp (st : MergeState) : MergeOp → Option MergeState
  | MergeOp.ingest f kw s => ingestIndividual st f kw s
  | MergeOp.merge f kw srcs => mergeEntities st f kw srcs
  | MergeOp.mergeInto c srcs => mergeIntoExisting st c srcs
  | MergeOp.unmerge c fs => unmergeEntity st c fs
  | MergeOp.split c partition fs => splitEntity st c partition fs

/- ## Concrete sample rows (used in witnesses and counterexamples) -/

def opKwargsSample : EntityOperationKwargs :=
  { collection_uuid := "11112222333344445555666677778888"
    operation_type := OperationType.merged
    entity_ids := none
    details := none
    performed_by_uuid := none
    statusArg := none }

def opSample : EntityOperation :=
  createEntityOperation "99990000aaaabbbbccccddddeeeeffff" 1 opKwargsSample

def colSample : Collection :=
  createCollection "11112222333344445555666677778888" "sample collection" "owner-1" none

def colSample2 : Collection :=
  createCollection "deadbeefdeadbeefdeadbeefdeadbeef" "other collection" "owner-1" none

def stSample : DbState :=
  { collections := [colSample], entity_operations := [opSample] }

def stSample2 : DbState :=
  { collections := [colSample, colSample2], entity_operations := [opSample] }

def linkSample : EntityLink :=
  { uuid := "aaaabbbbccccdddd0000111122223333"
    id := "22223333"
    graph_entity_uuid := none
    collection_entity_uuid := none
    collection_uuid := "11112222333344445555666677778888"
    entity_type := none
    confidence_score := some 150
    link_type := some "fuzzy_match"
    linked_entities := none
    is_active := true
    merged_entity_uuid := none
    common_name := none
    description := none
    created_by_tool := none }

def grGood : GraphRelationship :=
  { uuid := "0123456789abcdef0123456789abcdef"
    id := "89abcdef"
    source_entity_uuid := "e1"
    target_entity_uuid := "e2"
    relationship_id := none
    relationship_type := "related_to"
    is_directed := true
    weight := some 1
    confidence_score := some 1
    created_by_tool := "extractor"
    is_active := true }

def grBad : GraphRelationship :=
  { grGood with id := "89abcd00", weight := some 0 }

def ceKwargsSample : CollectionEntityKwargs :=
  { collection_uuid := "11112222333344445555666677778888"
    entity_id := "acme"
    entity_type := "organization_kind"
    name := "Acme Corp"
    is_mergedArg := none
    lifecycle_stateArg := none
    operation_lockArg := none }

def mergeStateSample : MergeState :=
  { entities := [createCollectionEntity "aaaa000100020003aaaa000100020003" ceKwargsSample]
    sources := [{ collection_entity_uuid := "aaaa000100020003aaaa000100020003"
                  source_graph_entity_uuid := "g1" }] }

/- ## Helper lemmas -/

theorem deriveShortId_length (u : String) (h : isCanonicalUuidRepr u) :
    (deriveShortId u).length = 8 := by
  unfold deriveShortId takeLast
  unfold isCanonicalUuidRepr at h
  have hlen : (stripHyphens u).toList.length = 32 := h
  show ((stripHyphens u).toList.drop ((stripHyphens u).toList.length - 8)).length = 8
  rw [List.length_drop, hlen]

theorem getKey_setKey_same (l : List (String × Json)) (k : String) (v : Json) :
    getKey (setKey l k v) k = some v := by
  induction l with
  | nil => simp [setKey, getKey]
  | cons p rest ih =>
    obtain ⟨k', v'⟩ := p
    by_cases h : k' = k
    · simp [setKey, getKey, h]
    · simp [setKey, getKey, h, ih]

theorem getKey_setKey_other (l : List (String × Json)) (k k2 : String) (v : Json)
    (hne : k2 ≠ k) : getKey (setKey l k v) k2 = getKey l k2 := by
  induction l with
  | nil => simp [setKey, getKey, Ne.symm hne]
  | cons p rest ih =>
    obtain ⟨k', v'⟩ := p
    by_cases h : k' = k
    · subst h
      simp [setKey, getKey, Ne.symm hne]
    · simp [setKey, getKey, h, ih]

theorem keyLen_cons (r : CollectionEntitySource) (l : List CollectionEntitySource)
    (u : String) :
    keyLen (r :: l) u
      = (if r.collection_entity_uuid = u then 1 else 0) + keyLen l u := by
  by_cases h : r.collection_entity_uuid = u <;>
    simp [keyLen, List.filter_cons, h, Nat.add_comm]

theorem keyLen_append (a b : List CollectionEntitySource) (u : String) :
    keyLen (a ++ b) u = keyLen a u + keyLen b u := by
  simp [keyLen, List.filter_append]

theorem keyLen_zero_of_any_false (l : List CollectionEntitySource) (u : String)
    (h : l.any (fun r => r.collection_entity_uuid == u) = false) :
    keyLen l u = 0 := by
  induction l with
  | nil => rfl
  | cons r t ih =>
    simp only [List.any_cons, Bool.or_eq_false_iff] at h
    rw [keyLen_cons, ih h.2, if_neg (by simpa using h.1)]

theorem keyLen_filter_le (l : List CollectionEntitySource)
    (p : CollectionEntitySource → Bool) (u : String) :
    keyLen (l.filter p) u ≤ keyLen l u := by
  induction l with
  | nil => exact Nat.le_refl 0
  | cons r t ih =>
    rw [List.filter_cons, keyLen_cons]
    by_cases hp : p r = true
    · rw [if_pos hp, keyLen_cons]
      exact Nat.add_le_add_left ih _
    · rw [if_neg hp]
      exact Nat.le_trans ih (Nat.le_add_left _ _)

theorem keyLen_filter_ne (l : List CollectionEntitySource) (dropKey u : String)
    (h : u ≠ dropKey) :
    keyLen (l.filter (fun r => r.collection_entity_uuid != dropKey)) u
      = keyLen l u := by
  induction l with
  | nil => rfl
  | cons r t ih =>
    by_cases h1 : r.collection_entity_uuid = dropKey
    · have h2 : r.collection_entity_uuid ≠ u := by
        rw [h1]; exact fun h3 => h (Eq.symm h3)
      simp [List.filter_cons, keyLen_cons, h1, h2, ih, Ne.symm h]
    · simp [List.filter_cons, keyLen_cons, h1, ih]

theorem keyLen_const_key (f : String) (srcs : List String) (u : String) :
    keyLen (srcs.map (fun s => CollectionEntitySource.mk f s)) u
      = if f = u then srcs.length else 0 := by
  induction srcs with
  | nil => by_cases h : f = u <;> simp [keyLen, h]
  | cons a t ih =>
    rw [List.map_cons, keyLen_cons, ih]
    by_cases h : f = u <;> simp [h, Nat.add_comm]

theorem keyLen_map_pairs (pairs : List (String × String)) (u : String) :
    keyLen (pairs.map (fun p => CollectionEntitySource.mk p.1 p.2)) u
      = strCount (pairs.map Prod.fst) u := by
  induction pairs with
  | nil => rfl
  | cons p ps ih =>
    rw [List.map_cons, keyLen_cons, List.map_cons]
    by_cases h : p.1 = u <;>
      simp [strCount, List.filter_cons, h, Nat.add_comm] at ih ⊢ <;>
      omega

theorem keyLen_filter_self (l : List CollectionEntitySource) (c : String) :
    keyLen (l.filter (fun r => r.collection_entity_uuid != c)) c = 0 := by
  apply keyLen_zero_of_any_false
  rw [List.any_eq_false]
  intro r hr
  simpa using (List.mem_filter.mp hr).2

theorem keyLen_parts_sum (qs : List (String × List String)) (u : String) :
    keyLen ((qs.map (fun q => q.2.map
        (fun s => CollectionEntitySource.mk q.1 s))).flatten) u
      = (qs.map (fun q => if q.1 = u then q.2.length else 0)).sum := by
  induction qs with
  | nil => rfl
  | cons q t ih =>
    rw [List.map_cons, List.flatten_cons, keyLen_append, keyLen_const_key, ih,
      List.map_cons, List.sum_cons]

theorem sum_if_key_zero (qs : List (String × List String)) (u : String)
    (h : u ∉ qs.map Prod.fst) :
    (qs.map (fun q => if q.1 = u then q.2.length else 0)).sum = 0 := by
  induction qs with
  | nil => rfl
  | cons q t ih =>
    rw [List.map_cons] at h
    have hq : q.1 ≠ u := by
      intro he
      exact h (by rw [← he]; exact List.mem_cons_self _ _)
    have ht : u ∉ t.map Prod.fst := fun he => h (List.mem_cons_of_mem _ he)
    rw [List.map_cons, List.sum_cons, if_neg hq, ih ht]

theorem sum_if_key_eq (qs : List (String × List String)) (u : String)
    (p : List String) (hnd : (qs.map Prod.fst).Nodup) (hmem : (u, p) ∈ qs) :
    (qs.map (fun q => if q.1 = u then q.2.length else 0)).sum = p.length := by
  induction qs with
  | nil => cases hmem
  | cons q t ih =>
    rw [List.map_cons, List.nodup_cons] at hnd
    rcases List.mem_cons.mp hmem with he | ht
    · subst he
      rw [List.map_cons, List.sum_cons, if_pos rfl,
        sum_if_key_zero t u hnd.1, Nat.add_zero]
    · have hu_t : u ∈ t.map Prod.fst := List.mem_map.mpr ⟨(u, p), ht, rfl⟩
      have hq : q.1 ≠ u := by
        intro he2
        exact hnd.1 (by rw [he2]; exact hu_t)
      rw [List.map_cons, List.sum_cons, if_neg hq, Nat.zero_add]
      exact ih hnd.2 ht

theorem strCount_zero_of_not_mem (l : List String) (u : String) (h : u ∉ l) :
    strCount l u = 0 := by
  induction l with
  | nil => rfl
  | cons a t ih =>
    have ha : a ≠ u := fun h2 => h (h2 ▸ List.mem_cons_self a t)
    have ht : u ∉ t := fun h2 => h (List.mem_cons_of_mem a h2)
    rw [strCount, List.filter_cons, if_neg (by simpa using ha)]
    exact ih ht

theorem strCount_one_of_nodup_mem (l : List String) (u : String)
    (hnd : l.Nodup) (hm : u ∈ l) : strCount l u = 1 := by
  induction l with
  | nil => cases hm
  | cons a t ih =>
    rcases List.mem_cons.mp hm with h | h
    · subst h
      have h0 : (t.filter (fun s => s == u)).length = 0 :=
        strCount_zero_of_not_mem t u (List.nodup_cons.mp hnd).1
      rw [strCount, List.filter_cons, if_pos (by simp)]
      simp [h0]
    · have ha : a ≠ u := by
        intro h2
        exact (List.nodup_cons.mp hnd).1 (h2 ▸ h)
      rw [strCount, List.filter_cons, if_neg (by simpa using ha)]
      exact ih (List.nodup_cons.mp hnd).2 h

theorem usedCeUuid_of_mem_entities (st : MergeState) (ce : CollectionEntity)
    (h : ce ∈ st.entities) : usedCeUuid st ce.uuid = true := by
  unfold usedCeUuid
  have h1 : st.entities.any (fun e => e.uuid == ce.uuid) = true :=
    List.any_eq_true.mpr ⟨ce, h, by simp⟩
  simp [h1]

theorem usedCeUuid_false_parts (st : MergeState) (u : String)
    (h : usedCeUuid st u = false) :
    st.entities.any (fun e => e.uuid == u) = false ∧
      st.sources.any (fun r => r.collection_entity_uuid == u) = false := by
  unfold usedCeUuid at h
  exact Bool.or_eq_false_iff.mp h

theorem checksOk_iff (r : GraphRelationship) :
    graphRelationshipChecksOk r = true ↔
      ((∀ w, r.weight = some w → 0 < w) ∧
       (∀ c, r.confidence_score = some c → 0 ≤ c ∧ c ≤ 1)) := by
  unfold graphRelationshipChecksOk
  cases hw : r.weight <;> cases hc : r.confidence_score <;>
    simp [hw, hc, decide_eq_true_eq] <;> tauto

/- ## Claim theorems -/

/-- C1: for every entity type using the dual-identifier pattern, the short
display id produced at creation time is derived deterministically from the
internal UUID — `str(uuid).replace('-', '')[-8:]` — is 8 characters long for
a canonical UUID representation, does not depend on any other input (two
constructions from the same UUID agree), and the unique `id` column rejects
a colliding short id at write time. -/
theorem dualId_short_id_correct (u f1 f2 : String) (h : isCanonicalUuidRepr u) :
    (dualIdInit f1 { uuidArg := some u, idArg := none }).2 = deriveShortId u ∧
    (dualIdInit f1 { uuidArg := some u, idArg := none }).2
      = (dualIdInit f2 { uuidArg := some u, idArg := none }).2 ∧
    ((dualIdInit f1 { uuidArg := some u, idArg := none }).2).length = 8 ∧
    ∀ t : DualIdTable,
      (t.any fun r => r.2 == (dualIdInit f1 { uuidArg := some u, idArg := none }).2)
          = true →
        insertDualIdRow t (u, (dualIdInit f1 { uuidArg := some u, idArg := none }).2)
          = none := by
  refine ⟨rfl, rfl, deriveShortId_length u h, ?_⟩
  intro t ht
  simp [insertDualIdRow, dualIdInit] at ht ⊢
  simp [ht]

theorem dualId_short_id_correct_witness :
    isCanonicalUuidRepr "12345678-1234-5678-9abc-123456789abc" ∧
    ((dualIdInit "f" { uuidArg := some "12345678-1234-5678-9abc-123456789abc", idArg := none }).2).length = 8 :=
  ⟨by decide,
   (dualId_short_id_correct "12345678-1234-5678-9abc-123456789abc" "f" "g"
      (by decide)).2.2.1⟩

/-- C9: `find_by_id` dispatch — a UUID value is looked up by the internal
uuid key; a string of length exactly 8 is looked up only as a short display
id; any other string is looked up by uuid when it parses as a UUID and
otherwise returns `None` without raising; any non-UUID, non-string input
returns `None`. -/
theorem find_by_id_dispatch (parseUuid : String → Option String)
    (t : List RepoRow) :
    (∀ u, find_by_id parseUuid t (PyId.uuidVal u) = find_by_uuid t u) ∧
    (∀ s, s.length = 8 →
      find_by_id parseUuid t (PyId.strVal s) = find_by_short_id t s) ∧
    (∀ s u, s.length ≠ 8 → parseUuid s = some u →
      find_by_id parseUuid t (PyId.strVal s) = find_by_uuid t u) ∧
    (∀ s, s.length ≠ 8 → parseUuid s = none →
      find_by_id parseUuid t (PyId.strVal s) = none) ∧
    find_by_id parseUuid t PyId.otherVal = none := by
  refine ⟨fun u => rfl, ?_, ?_, ?_, rfl⟩
  · intro s hs
    simp [find_by_id, hs]
  · intro s u hs hp
    simp [find_by_id, hs, hp]
  · intro s hs hp
    simp [find_by_id, hs, hp]

theorem find_by_id_dispatch_witness :
    ("abcd1234" : String).length = 8 ∧
    find_by_id parseCanonicalUuid
        [{ uuid := "0123456789abcdef0123456789abcdef", id := "abcd1234" }]
        (PyId.strVal "abcd1234")
      = find_by_short_id
          [{ uuid := "0123456789abcdef0123456789abcdef", id := "abcd1234" }]
          "abcd1234" :=
  ⟨by decide,
   (find_by_id_dispatch parseCanonicalUuid
      [{ uuid := "0123456789abcdef0123456789abcdef", id := "abcd1234" }]).2.1
      "abcd1234" (by decide)⟩

/-- C3: `mark_completed` sets `status` to `'completed'` and changes no other
field; `mark_failed` sets `status` to `'failed'` and stores the error message
under the `'error'` key of `operation_data` (initializing it to an empty
mapping when unset), changes no other field, and leaves every pre-existing
`operation_data` key in place. -/
theorem mark_methods_status_and_frame (op : EntityOperation) (msg : String) :
    ((mark_completed op).status = "completed" ∧
     (mark_completed op).uuid = op.uuid ∧
     (mark_completed op).id = op.id ∧
     (mark_completed op).collection_uuid = op.collection_uuid ∧
     (mark_completed op).operation_type = op.operation_type ∧
     (mark_completed op).entity_id = op.entity_id ∧
     (mark_completed op).description = op.description ∧
     (mark_completed op).details = op.details ∧
     (mark_completed op).performed_by_uuid = op.performed_by_uuid ∧
     (mark_completed op).entity_ids = op.entity_ids ∧
     (mark_completed op).operation_data = op.operation_data ∧
     (mark_completed op).user_uuid = op.user_uuid ∧
     (mark_completed op).performed_at = op.performed_at) ∧
    ((mark_failed op msg).status = "failed" ∧
     (op.operation_data = none →
       (mark_failed op msg).operation_data = some [("error", Json.str msg)]) ∧
     getKey ((mark_failed op msg).operation_data.getD []) "error"
       = some (Json.str msg) ∧
     (∀ k, k ≠ "error" →
       getKey ((mark_failed op msg).operation_data.getD []) k
         = getKey (op.operation_data.getD []) k) ∧
     (∀ k, (∃ v, getKey (op.operation_data.getD []) k = some v) →
       ∃ v', getKey ((mark_failed op msg).operation_data.getD []) k = some v') ∧
     (mark_failed op msg).uuid = op.uuid ∧
     (mark_failed op msg).id = op.id ∧
     (mark_failed op msg).collection_uuid = op.collection_uuid ∧
     (mark_failed op msg).operation_type = op.operation_type ∧
     (mark_failed op msg).entity_id = op.entity_id ∧
     (mark_failed op msg).description = op.description ∧
     (mark_failed op msg).details = op.details ∧
     (mark_failed op msg).performed_by_uuid = op.performed_by_uuid ∧
     (mark_failed op msg).entity_ids = op.entity_ids ∧
     (mark_failed op msg).user_uuid = op.user_uuid ∧
     (mark_failed op msg).performed_at = op.performed_at) := by
  have hdata : (mark_failed op msg).operation_data
      = some (setKey (op.operation_data.getD []) "error" (Json.str msg)) := by
    cases hd : op.operation_data <;> simp [mark_failed, hd]
  refine ⟨⟨rfl, rfl, rfl, rfl, rfl, rfl, rfl, rfl, rfl, rfl, rfl, rfl, rfl⟩,
    rfl, ?_, ?_, ?_, ?_, rfl, rfl, rfl, rfl, rfl, rfl, rfl, rfl, rfl, rfl, rfl⟩
  · intro h
    simp [mark_failed, h, setKey]
  · rw [hdata]
    simp [getKey_setKey_same]
  · intro k hk
    rw [hdata]
    simp [getKey_setKey_other _ _ _ _ hk]
  · intro k hv
    rw [hdata]
    by_cases hk : k = "error"
    · subst hk
      exact ⟨Json.str msg, by simp [getKey_setKey_same]⟩
    · obtain ⟨v, hv⟩ := hv
      exact ⟨v, by simp [getKey_setKey_other _ _ _ _ hk, hv]⟩

theorem mark_methods_status_and_frame_witness :
    (mark_completed opSample).status = "completed" ∧
    (mark_failed opSample "boom").status = "failed" ∧
    opSample.operation_data = none ∧
    (mark_failed opSample "boom").operation_data
      = some [("error", Json.str "boom")] :=
  ⟨(mark_methods_status_and_frame opSample "boom").1.1,
   (mark_methods_status_and_frame opSample "boom").2.1,
   rfl,
   (mark_methods_status_and_frame opSample "boom").2.2.1 rfl⟩

/-- C8: an `EntityOperation` created without a caller-supplied status has
status `'pending'`; among the model's own methods, only `mark_completed` and
`mark_failed` change the status, to `'completed'` and `'failed'`
respectively. -/
theorem create_operation_default_status (freshUuid : String) (now : Nat)
    (kw : EntityOperationKwargs) :
    (kw.statusArg = none →
      (createEntityOperation freshUuid now kw).status = "pending") ∧
    (∀ op : EntityOperation, ∀ m : OpMethod,
      (applyOpMethod op m).status ≠ op.status →
        m = OpMethod.markCompleted ∨ ∃ msg, m = OpMethod.markFailed msg) ∧
    (∀ op, (applyOpMethod op OpMethod.markCompleted).status = "completed") ∧
    (∀ op msg, (applyOpMethod op (OpMethod.markFailed msg)).status = "failed") := by
  refine ⟨?_, ?_, fun op => rfl, fun op msg => rfl⟩
  · intro h
    simp [createEntityOperation, h]
  · intro op m hm
    cases m with
    | markCompleted => exact Or.inl rfl
    | markFailed msg => exact Or.inr ⟨msg, rfl⟩
    | setRollbackData d => exact absurd rfl hm

theorem create_operation_default_status_witness :
    opKwargsSample.statusArg = none ∧ opSample.status = "pending" :=
  ⟨rfl,
   (create_operation_default_status "99990000aaaabbbbccccddddeeeeffff" 1
      opKwargsSample).1 rfl⟩

/-- C10: a newly created `CollectionEntity`, when the caller supplies none of
`lifecycle_state`, `is_merged`, `operation_lock`, has `lifecycle_state`
`'individual'`, `is_merged` false, and `operation_lock` unset. -/
theorem create_collection_entity_defaults (freshUuid cu eid ety nm : String) :
    (createCollectionEntity freshUuid { collection_uuid := cu, entity_id := eid, entity_type := ety, name := nm, is_mergedArg := none, lifecycle_stateArg := none, operation_lockArg := none }).lifecycle_state = "individual" ∧
    (createCollectionEntity freshUuid { collection_uuid := cu, entity_id := eid, entity_type := ety, name := nm, is_mergedArg := none, lifecycle_stateArg := none, operation_lockArg := none }).is_merged = false ∧
    (createCollectionEntity freshUuid { collection_uuid := cu, entity_id := eid, entity_type := ety, name := nm, is_mergedArg := none, lifecycle_stateArg := none, operation_lockArg := none }).operation_lock = none :=
  ⟨rfl, rfl, rfl⟩


/-- C5: every `graph_state` reachable through the graph state machine lies in
{uninitialized, initializing, synchronized, out_of_sync, updating, error},
and a newly created `Collection`, before any state-machine operation, has
`graph_state` `'uninitialized'` with `entity_count`, `relationship_count` and
`document_count` all 0. -/
theorem collection_graph_state_domain (freshUuid nm ow : String)
    (org : Option String) :
    ((createCollection freshUuid nm ow org).graph_state = "uninitialized" ∧
     (createCollection freshUuid nm ow org).entity_count = 0 ∧
     (createCollection freshUuid nm ow org).relationship_count = 0 ∧
     (createCollection freshUuid nm ow org).document_count = 0 ∧
     "uninitialized" ∈ graphStates) ∧
    (∀ s e s', graphStateStep s e = some s' → s' ∈ graphStates) := by
  refine ⟨⟨rfl, rfl, rfl, rfl, by decide⟩, ?_⟩
  intro s e s' h
  cases e <;> simp only [graphStateStep] at h <;> split at h <;>
    cases h <;> decide

theorem collection_graph_state_domain_witness :
    graphStateStep "uninitialized" GraphEvent.beginInit = some "initializing" ∧
    "initializing" ∈ graphStates :=
  ⟨rfl,
   (collection_graph_state_domain "f" "n" "o" none).2 "uninitialized"
      GraphEvent.beginInit "initializing" rfl⟩

/-- C7: a `GraphRelationship` row can be persisted only when its `weight` is
absent or strictly positive and its `confidence_score` is absent or within
[0, 1]; a row violating either bound is rejected by the declared check
constraints. -/
theorem graph_relationship_bounds (t : List GraphRelationship)
    (r : GraphRelationship) :
    (∀ t', insertGraphRelationship t r = some t' →
      (∀ w, r.weight = some w → 0 < w) ∧
      (∀ c, r.confidence_score = some c → 0 ≤ c ∧ c ≤ 1)) ∧
    (((∃ w, r.weight = some w ∧ w ≤ 0) ∨
      (∃ c, r.confidence_score = some c ∧ (c < 0 ∨ 1 < c))) →
      insertGraphRelationship t r = none) := by
  constructor
  · intro t' ht
    unfold insertGraphRelationship at ht
    by_cases h1 : (t.any fun e => e.id == r.id) = true
    · rw [if_pos h1] at ht
      cases ht
    · rw [if_neg h1] at ht
      by_cases h2 : graphRelationshipChecksOk r = true
      · exact (checksOk_iff r).mp h2
      · rw [if_neg h2] at ht
        cases ht
  · intro hbad
    have hchk : graphRelationshipChecksOk r = false := by
      cases hb : graphRelationshipChecksOk r with
      | false => rfl
      | true =>
        exfalso
        have hok := (checksOk_iff r).mp hb
        rcases hbad with ⟨w, hw, hle⟩ | ⟨c, hcs, hor⟩
        · exact absurd (hok.1 w hw) (not_lt.mpr hle)
        · rcases hor with hlt | hgt
          · exact absurd (hok.2 c hcs).1 (not_le.mpr hlt)
          · exact absurd (hok.2 c hcs).2 (not_le.mpr hgt)
    unfold insertGraphRelationship
    by_cases h1 : (t.any fun e => e.id == r.id) = true
    · rw [if_pos h1]
    · rw [if_neg h1, if_neg (by simp [hchk])]

theorem graph_relationship_bounds_witness :
    ((0 : ℚ) < 1 ∧ ((0 : ℚ) ≤ 1 ∧ (1 : ℚ) ≤ 1)) ∧
    insertGraphRelationship [] grBad = none := by
  have hgood : insertGraphRelationship [] grGood = some [grGood] := by
    simp [insertGraphRelationship, graphRelationshipChecksOk, grGood]
  refine ⟨⟨((graph_relationship_bounds [] grGood).1 [grGood] hgood).1 1 rfl,
    ((graph_relationship_bounds [] grGood).1 [grGood] hgood).2 1 rfl⟩,
    (graph_relationship_bounds [] grBad).2 (Or.inl ⟨0, rfl, le_refl 0⟩)⟩

/-- C6 counterexample: the claim "no operation can persist an `EntityLink`
with a `confidence_score` outside 0..100" is false — an `EntityLink` row with
`confidence_score = 150` passes every declared write-time check of the
`entity_links` table and is persisted. -/
theorem entity_link_confidence_not_enforced_cex :
    insertEntityLink [] linkSample = some [linkSample] ∧
    linkSample.confidence_score = some 150 ∧
    ¬ (150 : Int) ≤ 100 :=
  ⟨rfl, rfl, by decide⟩

/-- C6 amended: `confidence_score` is documented as 0-100 (column comment,
collection.py line 309), but the `entity_links` table declares no check
constraint on it — any row whose short id is fresh is persisted, whatever
its `confidence_score`. -/
theorem entity_link_confidence_unconstrained (t : List EntityLink)
    (r : EntityLink) (h : ∀ e ∈ t, e.id ≠ r.id) :
    (insertEntityLink t r).isSome = true := by
  have hany : (t.any fun e => e.id == r.id) = false := by
    rw [List.any_eq_false]
    intro e he
    simpa using h e he
  simp [insertEntityLink, hany, entityLinkChecksOk]

theorem entity_link_confidence_unconstrained_witness :
    (∀ e ∈ ([] : List EntityLink), e.id ≠ linkSample.id) ∧
    (insertEntityLink [] linkSample).isSome = true :=
  ⟨by simp, entity_link_confidence_unconstrained [] linkSample (by simp)⟩

/-- C4 counterexample: the claim "every previously recorded `EntityOperation`
row remains present after every application operation, including deletion of
the owning `Collection`" is false — `BaseRepository.delete` on the owning
collection cascade-deletes its ledger rows (`cascade="all, delete-orphan"`,
`ondelete='CASCADE'`). -/
theorem ledger_cascade_delete_cex :
    opSample ∈ stSample.entity_operations ∧
    (deleteCollection stSample colSample.uuid).2 = true ∧
    (deleteCollection stSample colSample.uuid).1.entity_operations = [] ∧
    opSample ∉ (deleteCollection stSample colSample.uuid).1.entity_operations := by
  refine ⟨List.mem_singleton.mpr rfl, rfl, rfl, ?_⟩
  have h : (deleteCollection stSample colSample.uuid).1.entity_operations = [] := rfl
  rw [h]
  exact List.not_mem_nil opSample

/-- C4 amended: ledger rows are removed only by the cascade that deletes
their owning `Collection`; deleting any other collection leaves every
recorded `EntityOperation` present, and recording a new operation never
removes an existing one. -/
theorem ledger_preserved_unless_owner_deleted (st : DbState) (u : String)
    (op : EntityOperation) (hmem : op ∈ st.entity_operations)
    (hne : op.collection_uuid ≠ u) :
    op ∈ (deleteCollection st u).1.entity_operations ∧
    ∀ newOp, op ∈ (recordOperation st newOp).entity_operations := by
  constructor
  · unfold deleteCollection
    cases hf : st.collections.find? (fun c => c.uuid == u) with
    | none => simpa using hmem
    | some c =>
      simp only [List.mem_filter]
      exact ⟨hmem, by simpa [bne_iff_ne] using hne⟩
  · intro newOp
    exact List.mem_cons_of_mem _ hmem

theorem ledger_preserved_unless_owner_deleted_witness :
    opSample ∈ (deleteCollection stSample2 colSample2.uuid).1.entity_operations :=
  (ledger_preserved_unless_owner_deleted stSample2 colSample2.uuid opSample
    (by simp [stSample2]) (by decide)).1


theorem ceInvariant_cons_ingest (st : MergeState) (f src : String)
    (ce0 : CollectionEntity) (hinv : ceInvariant st)
    (hu : usedCeUuid st f = false) (huuid : ce0.uuid = f)
    (hmg : ce0.is_merged = false) :
    ceInvariant
      { entities := ce0 :: st.entities
        sources := { collection_entity_uuid := f,
                     source_graph_entity_uuid := src } :: st.sources } := by
  have hparts := usedCeUuid_false_parts st f hu
  intro ce hce
  rcases List.mem_cons.mp hce with hceq | hmem
  · subst hceq
    constructor
    · intro h
      rw [hmg] at h
      cases h
    · intro _
      simp only [sourceRowCount]
      rw [huuid, keyLen_cons, if_pos rfl,
        keyLen_zero_of_any_false st.sources f hparts.2]
  · have hne : ce.uuid ≠ f := by
      intro he
      have hused := usedCeUuid_of_mem_entities st ce hmem
      rw [he, hu] at hused
      cases hused
    obtain ⟨h1, h2⟩ := hinv ce hmem
    constructor
    · intro hm
      simp only [sourceRowCount]
      rw [keyLen_cons, if_neg (fun h => hne (Eq.symm h)), Nat.zero_add]
      exact h1 hm
    · intro hl
      simp only [sourceRowCount]
      rw [keyLen_cons, if_neg (fun h => hne (Eq.symm h)), Nat.zero_add]
      exact h2 hl

theorem ceInvariant_cons_merge (st : MergeState) (f : String)
    (srcs : List String) (ce0 : CollectionEntity) (hinv : ceInvariant st)
    (hu : usedCeUuid st f = false) (huuid : ce0.uuid = f)
    (hmg : ce0.is_merged = true) (hlc : ce0.lifecycle_state = "merged")
    (hlen : 2 ≤ srcs.length) :
    ceInvariant
      { entities := ce0 :: st.entities
        sources := srcs.map (fun s' => CollectionEntitySource.mk f s')
          ++ st.sources } := by
  have hparts := usedCeUuid_false_parts st f hu
  intro ce hce
  rcases List.mem_cons.mp hce with hceq | hmem
  · subst hceq
    constructor
    · intro _
      simp only [sourceRowCount]
      rw [huuid, keyLen_append, keyLen_const_key, if_pos rfl,
        keyLen_zero_of_any_false st.sources f hparts.2]
      exact hlen
    · intro hl
      rw [hlc] at hl
      exact absurd hl (by decide)
  · have hne : ce.uuid ≠ f := by
      intro he
      have hused := usedCeUuid_of_mem_entities st ce hmem
      rw [he, hu] at hused
      cases hused
    obtain ⟨h1, h2⟩ := hinv ce hmem
    constructor
    · intro hm
      simp only [sourceRowCount]
      rw [keyLen_append, keyLen_const_key, if_neg (fun h => hne (Eq.symm h)),
        Nat.zero_add]
      exact h1 hm
    · intro hl
      simp only [sourceRowCount]
      rw [keyLen_append, keyLen_const_key, if_neg (fun h => hne (Eq.symm h)),
        Nat.zero_add]
      exact h2 hl

theorem ceInvariant_unmerge (st : MergeState) (c : String)
    (fresh : List String) (ce0 : CollectionEntity) (hinv : ceInvariant st)
    (hlen : fresh.length = (unmergeSrcs st c).length) (hnd : fresh.Nodup)
    (hunused : ∀ u ∈ fresh, usedCeUuid st u = false) :
    ceInvariant
      { entities :=
          (fresh.zip (unmergeSrcs st c)).map
            (fun p =>
              { ce0 with
                uuid := p.1
                id := deriveShortId p.1
                is_merged := false
                lifecycle_state := "individual" }) ++
            st.entities.filter (fun e => e.uuid != c)
        sources :=
          (fresh.zip (unmergeSrcs st c)).map
            (fun p => { collection_entity_uuid := p.1,
                        source_graph_entity_uuid := p.2 }) ++
            st.sources.filter (fun r => r.collection_entity_uuid != c) } := by
  have hfst : (fresh.zip (unmergeSrcs st c)).map Prod.fst = fresh :=
    List.map_fst_zip fresh (unmergeSrcs st c) (le_of_eq hlen)
  intro ce hce
  rcases List.mem_append.mp hce with hnew | hold
  · obtain ⟨p, hp, hpe⟩ := List.mem_map.mp hnew
    subst hpe
    have hp1 : p.1 ∈ fresh := by
      rw [← hfst]
      exact List.mem_map.mpr ⟨p, hp, rfl⟩
    have h0 : keyLen st.sources p.1 = 0 :=
      keyLen_zero_of_any_false st.sources p.1
        (usedCeUuid_false_parts st p.1 (hunused p.1 hp1)).2
    have h0f : keyLen
        (st.sources.filter (fun r => r.collection_entity_uuid != c)) p.1 = 0 :=
      Nat.le_zero.mp (h0 ▸ keyLen_filter_le st.sources _ p.1)
    constructor
    · intro hm
      simp only [] at hm
      exact Bool.noConfusion hm
    · intro _
      simp only [sourceRowCount]
      rw [keyLen_append, keyLen_map_pairs, hfst,
        strCount_one_of_nodup_mem fresh p.1 hnd hp1, h0f]
  · have hmf := List.mem_filter.mp hold
    have hmem := hmf.1
    have hne : ce.uuid ≠ c := by simpa using hmf.2
    have hni : ce.uuid ∉ fresh := by
      intro hmemf
      have h1 := hunused ce.uuid hmemf
      have h2 := usedCeUuid_of_mem_entities st ce hmem
      rw [h1] at h2
      cases h2
    obtain ⟨h1, h2⟩ := hinv ce hmem
    constructor
    · intro hm
      simp only [sourceRowCount]
      rw [keyLen_append, keyLen_map_pairs, hfst,
        strCount_zero_of_not_mem fresh ce.uuid hni,
        keyLen_filter_ne st.sources c ce.uuid hne, Nat.zero_add]
      exact h1 hm
    · intro hl
      simp only [sourceRowCount]
      rw [keyLen_append, keyLen_map_pairs, hfst,
        strCount_zero_of_not_mem fresh ce.uuid hni,
        keyLen_filter_ne st.sources c ce.uuid hne, Nat.zero_add]
      exact h2 hl

theorem ceInvariant_merge_into (st : MergeState) (c : String)
    (srcs : List String) (hinv : ceInvariant st) (hlen : 2 ≤ srcs.length) :
    ceInvariant
      { entities :=
          st.entities.map (fun e =>
            if e.uuid == c then
              { e with is_merged := true, lifecycle_state := "merged" }
            else e)
        sources :=
          srcs.map (fun s' => CollectionEntitySource.mk c s') ++
            st.sources.filter (fun r => r.collection_entity_uuid != c) } := by
  intro ce hce
  obtain ⟨e, he, hee⟩ := List.mem_map.mp hce
  by_cases hu : (e.uuid == c) = true
  · rw [if_pos hu] at hee
    subst hee
    have huc : e.uuid = c := by simpa using hu
    constructor
    · intro _
      simp only [sourceRowCount]
      rw [huc, keyLen_append, keyLen_const_key, if_pos rfl,
        keyLen_filter_self st.sources c, Nat.add_zero]
      exact hlen
    · intro hl
      have hl2 : ("merged" : String) = "individual" := hl
      exact absurd hl2 (by decide)
  · rw [if_neg hu] at hee
    subst hee
    have hne : e.uuid ≠ c := by simpa using hu
    obtain ⟨h1, h2⟩ := hinv e he
    constructor
    · intro hm
      simp only [sourceRowCount]
      rw [keyLen_append, keyLen_const_key, if_neg (fun h => hne (Eq.symm h)),
        keyLen_filter_ne st.sources c e.uuid hne, Nat.zero_add]
      exact h1 hm
    · intro hl
      simp only [sourceRowCount]
      rw [keyLen_append, keyLen_const_key, if_neg (fun h => hne (Eq.symm h)),
        keyLen_filter_ne st.sources c e.uuid hne, Nat.zero_add]
      exact h2 hl

theorem ceInvariant_split (st : MergeState) (c : String)
    (partition : List (List String)) (fresh : List String)
    (ce0 : CollectionEntity) (hinv : ceInvariant st)
    (hne0 : ∀ part ∈ partition, part ≠ [])
    (hlen : fresh.length = partition.length) (hnd : fresh.Nodup)
    (hunused : ∀ u ∈ fresh, usedCeUuid st u = false) :
    ceInvariant
      { entities :=
          (fresh.zip partition).map
            (fun q =>
              { ce0 with
                uuid := q.1
                id := deriveShortId q.1
                is_merged := decide (2 ≤ q.2.length)
                lifecycle_state :=
                  if 2 ≤ q.2.length then "merged" else "individual" }) ++
            st.entities.filter (fun e => e.uuid != c)
        sources :=
          ((fresh.zip partition).map
            (fun q => q.2.map (fun s =>
              { collection_entity_uuid := q.1,
                source_graph_entity_uuid := s }))).flatten ++
            st.sources.filter (fun r => r.collection_entity_uuid != c) } := by
  have hfst : (fresh.zip partition).map Prod.fst = fresh :=
    List.map_fst_zip fresh partition (le_of_eq hlen)
  have hsnd : (fresh.zip partition).map Prod.snd = partition :=
    List.map_snd_zip fresh partition (le_of_eq (Eq.symm hlen))
  have hndq : ((fresh.zip partition).map Prod.fst).Nodup := by
    rw [hfst]
    exact hnd
  intro ce hce
  rcases List.mem_append.mp hce with hnew | hold
  · obtain ⟨q, hq, hqe⟩ := List.mem_map.mp hnew
    obtain ⟨u1, p1⟩ := q
    subst hqe
    have hu1 : u1 ∈ fresh := by
      rw [← hfst]
      exact List.mem_map.mpr ⟨(u1, p1), hq, rfl⟩
    have hp1 : p1 ∈ partition := by
      rw [← hsnd]
      exact List.mem_map.mpr ⟨(u1, p1), hq, rfl⟩
    have h0 : keyLen st.sources u1 = 0 :=
      keyLen_zero_of_any_false st.sources u1
        (usedCeUuid_false_parts st u1 (hunused u1 hu1)).2
    have h0f : keyLen
        (st.sources.filter (fun r => r.collection_entity_uuid != c)) u1 = 0 :=
      Nat.le_zero.mp (h0 ▸ keyLen_filter_le st.sources _ u1)
    constructor
    · intro hm
      simp only [] at hm
      have hm2 : 2 ≤ p1.length := of_decide_eq_true hm
      simp only [sourceRowCount]
      rw [keyLen_append, keyLen_parts_sum,
        sum_if_key_eq (fresh.zip partition) u1 p1 hndq hq, h0f, Nat.add_zero]
      exact hm2
    · intro hl
      simp only [] at hl
      by_cases h2 : 2 ≤ p1.length
      · rw [if_pos h2] at hl
        exact absurd hl (by decide)
      · have hpos : 0 < p1.length := List.length_pos.mpr (hne0 p1 hp1)
        simp only [sourceRowCount]
        rw [keyLen_append, keyLen_parts_sum,
          sum_if_key_eq (fresh.zip partition) u1 p1 hndq hq, h0f, Nat.add_zero]
        omega
  · have hmf := List.mem_filter.mp hold
    have hmem := hmf.1
    have hne : ce.uuid ≠ c := by simpa using hmf.2
    have hni : ce.uuid ∉ fresh := by
      intro hmemf
      have hA := hunused ce.uuid hmemf
      have hB := usedCeUuid_of_mem_entities st ce hmem
      rw [hA] at hB
      cases hB
    have hniq : ce.uuid ∉ (fresh.zip partition).map Prod.fst := by
      rw [hfst]
      exact hni
    obtain ⟨h1, h2⟩ := hinv ce hmem
    constructor
    · intro hm
      simp only [sourceRowCount]
      rw [keyLen_append, keyLen_parts_sum, sum_if_key_zero _ ce.uuid hniq,
        keyLen_filter_ne st.sources c ce.uuid hne, Nat.zero_add]
      exact h1 hm
    · intro hl
      simp only [sourceRowCount]
      rw [keyLen_append, keyLen_parts_sum, sum_if_key_zero _ ce.uuid hniq,
        keyLen_filter_ne st.sources c ce.uuid hne, Nat.zero_add]
      exact h2 hl

/-- C2: the invariant — a persisted `CollectionEntity` with `is_merged=true`
has at least 2 rows in the `CollectionEntitySource` junction table, and one
with `lifecycle_state='individual'` has exactly 1 — is preserved by every
merge-engine operation that creates or mutates a `CollectionEntity`
(ingestion of an individual entity, merge into a fresh entity, merge into
an existing entity, unmerge, and split into an arbitrary partition). -/
theorem merge_engine_invariant (st : MergeState) (op : MergeOp)
    (st' : MergeState) (hinv : ceInvariant st)
    (hstep : applyMergeOp st op = some st') : ceInvariant st' := by
  cases op with
  | ingest f kw src =>
    simp only [applyMergeOp] at hstep
    unfold ingestIndividual at hstep
    split at hstep
    · cases hstep
    · rename_i hu0
      have hu : usedCeUuid st f = false := by simpa using hu0
      injection hstep with hX
      subst hX
      exact ceInvariant_cons_ingest st f src _ hinv hu rfl rfl
  | merge f kw srcs =>
    simp only [applyMergeOp] at hstep
    unfold mergeEntities at hstep
    split at hstep
    · cases hstep
    · rename_i hu0
      have hu : usedCeUuid st f = false := by simpa using hu0
      split at hstep
      · cases hstep
      · rename_i hlt
        split at hstep
        · cases hstep
        · rename_i hnd0
          injection hstep with hX
          subst hX
          exact ceInvariant_cons_merge st f srcs _ hinv hu rfl rfl rfl (by omega)
  | unmerge c fresh =>
    simp only [applyMergeOp] at hstep
    unfold unmergeEntity at hstep
    split at hstep
    · cases hstep
    · rename_i ce0 hfind
      split at hstep
      · cases hstep
      · split at hstep
        · rename_i hcond
          injection hstep with hX
          subst hX
          exact ceInvariant_unmerge st c fresh ce0 hinv hcond.1 hcond.2.1
            hcond.2.2
        · cases hstep
  | mergeInto c srcs =>
    simp only [applyMergeOp] at hstep
    unfold mergeIntoExisting at hstep
    split at hstep
    · cases hstep
    · split at hstep
      · cases hstep
      · split at hstep
        · cases hstep
        · injection hstep with hX
          subst hX
          exact ceInvariant_merge_into st c srcs hinv (by omega)
  | split c partition fs =>
    simp only [applyMergeOp] at hstep
    unfold splitEntity at hstep
    split at hstep
    · cases hstep
    · rename_i ce0 hfind
      split at hstep
      · cases hstep
      · split at hstep
        · rename_i hcond
          injection hstep with hX
          subst hX
          exact ceInvariant_split st c partition fs ce0 hinv hcond.2.1
            hcond.2.2.2.1 hcond.2.2.2.2.1 hcond.2.2.2.2.2
        · cases hstep

theorem merge_engine_invariant_witness :
    ceInvariant { entities := [], sources := [] } ∧
    ceInvariant mergeStateSample :=
  ⟨by decide,
   merge_engine_invariant { entities := [], sources := [] }
     (MergeOp.ingest "aaaa000100020003aaaa000100020003" ceKwargsSample "g1")
     mergeStateSample (by decide) rfl⟩


end AxaiPg
